import Mathlib

/- Shallow embedding of src/gui/browserv7/src/RBrowser.cxx (web-based ROOT
   browser prototype).  The session state, the two canvas registries and the
   string-prefix command dispatcher are modelled as pure data and functions;
   external collaborators (JSON parsing via TBufferJSON, the browsable tree,
   the web-window transport) are abstracted as an environment of oracles, and
   observable side effects are recorded as an explicit effect list.  String
   indexing (std::string::at) and vector indexing are embedded totally,
   returning a Fault where the C++ would throw or have undefined behaviour. -/

deriving instance DecidableEq for Except

namespace RBrowser

/-- Model of a TObject that can be drawn (identity only). -/
structure TObj where
  id : Nat
deriving DecidableEq

/-- Model of an element of the browsable tree: it may expose text content
    (HasTextContent / GetTextContent) and-or a drawable object
    (GetObjectToDraw). -/
structure Element where
  textContent : Option String
  objectToDraw : Option TObj

/-- Model of RBrowserRequest: a path plus a pagination window. -/
structure BrowserRequest where
  path : String
  first : Nat
  number : Nat

/-- Oracles for the external collaborators used by RBrowser.cxx: the two
    TBufferJSON FromJSON parsers, the browsable tree GetElement lookup, the
    serialized reply of fBrowsable.ProcessRequest, the canvas address
    helpers and the two ToJSON serializers. -/
structure Env where
  parseRequest : String → Option BrowserRequest
  parseStrArr : String → Option (List String)
  getElement : String → Option Element
  requestReplyJson : BrowserRequest → String
  canvasUrl : String → String
  rcanvasAddr : String → String
  canvJson : List String → String
  initJson : List (List String) → String

/-- Legacy web canvas (TCanvas): name, title, list of primitives with their
    drawing options. -/
structure TCanvas where
  fName : String
  fTitle : String
  fPrimitives : List (TObj × String)
deriving DecidableEq

/-- Next-generation canvas (RCanvas): title and primitives. -/
structure RCanvas where
  fTitle : String
  fPrimitives : List TObj
deriving DecidableEq

/-- RBrowser session state: working directory, active-canvas name, the two
    canvas registries, the RCanvas mode flag, and the identifiers of the
    web-window connections. -/
structure State where
  fWorkingDirectory : String
  fActiveCanvas : String
  fCanvases : List TCanvas
  fRCanvases : List RCanvas
  fUseRCanvas : Bool
  connections : List Nat
deriving DecidableEq

/-- Observable side effects of the handlers. -/
inductive Effect where
  | send (connid : Nat) (msg : String)
  | terminate
  | execMacroFile (file : String)
  | writeFile (path content : String)
  | setTopItem (path : String)
  | chDirSys (path : String)
  | showWindow
  | showEmbed (name : String)
  | forceUpdate (name : String)
  | rcanvasUpdate (title : String)
deriving DecidableEq

/-- Faults of the total embedding: an out-of-range std::string at access and
    an out-of-range vector index. -/
inductive Fault where
  | stringAtOutOfRange (idx len : Nat)
  | vectorIndexOutOfRange (idx len : Nat)
deriving DecidableEq

/-- Total model of std::string substr(n). -/
def strDrop (s : String) (n : Nat) : String := String.mk (s.data.drop n)

/-- Character-list prefix test (recursion on the pattern list). -/
def listStarts : List Char → List Char → Bool
  | [], _ => true
  | a :: as, l =>
    match l with
    | [] => false
    | b :: bs => a == b && listStarts as bs

/-- Prefix test modelling arg.compare(0, n, lit) == 0 for a literal of
    length n. -/
def strStarts (p s : String) : Bool := listStarts p.data s.data

/-- Total model of std::string at(i): some when i < size, none otherwise. -/
def strAt (s : String) (i : Nat) : Option Char := s.data.get? i

/-- RBrowser::ProcessBrowserRequest: the empty message becomes the default
    request (path "/", first 0, number 100); an unparsable JSON message
    yields the empty reply; otherwise the reply is BREPL: followed by the
    serialized listing. -/
def ProcessBrowserRequest (env : Env) (msg : String) : String :=
  let request : Option BrowserRequest :=
    if msg = "" then some ⟨"/", 0, 100⟩ else env.parseRequest msg
  match request with
  | none => ""
  | some req => "BREPL:" ++ env.requestReplyJson req

/-- The split loop shared by ProcessSaveFile and ProcessRunCommand: one
    getline up to the first colon (the colon is consumed), then one getline
    up to a NUL character or the end of the input; a getline that extracts
    nothing fails and pushes no element. -/
def saveFileSplit (payload : String) : List String :=
  if payload.data = [] then []
  else
    let s := payload.data
    let name := String.mk (s.takeWhile (fun c => c != ':'))
    let rest := (s.dropWhile (fun c => c != ':')).drop 1
    if rest = [] then [name]
    else [name, String.mk (rest.takeWhile (fun c => c != '\x00'))]

/-- RBrowser::ProcessSaveFile: splits the payload and writes split[1] to the
    file named split[0]; both vector accesses are embedded totally, in the
    order the source performs them. -/
def ProcessSaveFile (payload : String) : Except Fault (String × String) :=
  let split := saveFileSplit payload
  match split.get? 0 with
  | none => .error (.vectorIndexOutOfRange 0 split.length)
  | some name =>
    match split.get? 1 with
    | none => .error (.vectorIndexOutOfRange 1 split.length)
    | some content => .ok (name, content)

/-- RBrowser::ProcessRunCommand: the same split; executes the macro file
    split[0]. -/
def ProcessRunCommand (payload : String) : Except Fault String :=
  let split := saveFileSplit payload
  match split.get? 0 with
  | none => .error (.vectorIndexOutOfRange 0 split.length)
  | some file => .ok file

/-- RBrowser::GetActiveCanvas: the first legacy canvas whose name equals the
    active-canvas string. -/
def GetActiveCanvas (st : State) : Option TCanvas :=
  st.fCanvases.find? (fun canv => st.fActiveCanvas == canv.fName)

/-- RBrowser::GetActiveRCanvas: the first next-generation canvas whose title
    equals the active-canvas string. -/
def GetActiveRCanvas (st : State) : Option RCanvas :=
  st.fRCanvases.find? (fun canv => st.fActiveCanvas == canv.fTitle)

/-- Replacement of the primitives of the first legacy canvas whose name
    matches: the mutation ProcessDblClick performs through the pointer
    returned by GetActiveCanvas. -/
def setFirstCanvasPrimitives (act : String) (prims : List (TObj × String)) :
    List TCanvas → List TCanvas
  | [] => []
  | c :: cs =>
    if act == c.fName then { c with fPrimitives := prims } :: cs
    else c :: setFirstCanvasPrimitives act prims cs

/-- Replacement of the primitives of the first next-generation canvas whose
    title matches. -/
def setFirstRCanvasPrimitives (act : String) (prims : List TObj) :
    List RCanvas → List RCanvas
  | [] => []
  | c :: cs =>
    if act == c.fTitle then { c with fPrimitives := prims } :: cs
    else c :: setFirstRCanvasPrimitives act prims cs

/-- RBrowser::ProcessDblClick: resolves the path; text content is returned
    as FREAD:, otherwise a drawable object is drawn on the active legacy
    canvas (clear primitives, add, force update) or, failing that, on the
    active RCanvas (wipe, draw the clone); with no active canvas the reply
    is empty and nothing changes. -/
def ProcessDblClick (env : Env) (st : State) (item_path drawingOptions : String) :
    State × List Effect × String :=
  match env.getElement item_path with
  | none => (st, [], "")
  | some elem =>
    match elem.textContent with
    | some txt => (st, [], "FREAD:" ++ txt)
    | none =>
      match elem.objectToDraw with
      | none => (st, [], "")
      | some tobj =>
        match GetActiveCanvas st with
        | some canv =>
          ({ st with fCanvases :=
               setFirstCanvasPrimitives st.fActiveCanvas [(tobj, drawingOptions)] st.fCanvases },
           [.forceUpdate canv.fName], "SLCTCANV:" ++ canv.fName)
        | none =>
          match GetActiveRCanvas st with
          | some rcanv =>
            ({ st with fRCanvases :=
                 setFirstRCanvasPrimitives st.fActiveCanvas [tobj] st.fRCanvases },
             [.rcanvasUpdate rcanv.fTitle], "SLCTCANV:" ++ rcanv.fTitle)
          | none => (st, [], "")

/-- RBrowser::AddCanvas: creates webcanvN with N = fCanvases.size() + 1,
    names and titles it so, makes it active, shows its web window embedded
    and appends it to the legacy registry. -/
def AddCanvas (st : State) : State × List Effect × TCanvas :=
  let canv_name := "webcanv" ++ toString (st.fCanvases.length + 1)
  let canv : TCanvas := ⟨canv_name, canv_name, []⟩
  ({ st with fActiveCanvas := canv_name, fCanvases := st.fCanvases ++ [canv] },
   [.showEmbed canv_name], canv)

/-- RBrowser::AddRCanvas: creates rcanvN with N = fRCanvases.size() + 1,
    shows it embedded, makes it active and appends it to the
    next-generation registry. -/
def AddRCanvas (st : State) : State × List Effect × RCanvas :=
  let name := "rcanv" ++ toString (st.fRCanvases.length + 1)
  let canv : RCanvas := ⟨name, []⟩
  ({ st with fActiveCanvas := name, fRCanvases := st.fRCanvases ++ [canv] },
   [.showEmbed name], canv)

/-- Erase of the canvas located by find_if: the first legacy canvas with
    the given name. -/
def eraseFirstByName (name : String) : List TCanvas → List TCanvas
  | [] => []
  | c :: cs => if name == c.fName then cs else c :: eraseFirstByName name cs

/-- RBrowser::CloseCanvas: erases the first legacy canvas with the given
    name (the next-generation registry is not searched) and clears the
    active-canvas name when it equals the given one. -/
def CloseCanvas (st : State) (name : String) : State :=
  { st with
    fCanvases := eraseFirstByName name st.fCanvases,
    fActiveCanvas := if st.fActiveCanvas == name then "" else st.fActiveCanvas }

/-- RBrowser::GetCanvasUrl for a legacy canvas. -/
def GetCanvasUrl (env : Env) (canv : TCanvas) : String :=
  env.canvasUrl canv.fName

/-- RBrowser::GetRCanvasUrl: "../" + window address + "/". -/
def GetRCanvasUrl (env : Env) (canv : RCanvas) : String :=
  "../" ++ env.rcanvasAddr canv.fTitle ++ "/"

/-- The (kind, url, name) triples of all open canvases, legacy ones first,
    as assembled by RBrowser::SendInitMsg. -/
def initListing (env : Env) (st : State) : List (List String) :=
  st.fCanvases.map (fun canv => ["root6", GetCanvasUrl env canv, canv.fName]) ++
  st.fRCanvases.map (fun canv => ["root7", GetRCanvasUrl env canv, canv.fTitle])

/-- RBrowser::SendInitMsg: serializes the listing and sends it as INMSG: to
    the given connection. -/
def SendInitMsg (env : Env) (st : State) (connid : Nat) : Effect :=
  .send connid ("INMSG:" ++ env.initJson (initListing env st))

/-- RBrowser::GetCurrentWorkingDirectory: the GETWORKDIR reply string built
    from the stored working directory. -/
def GetCurrentWorkingDirectory (st : State) : String :=
  "GETWORKDIR: \x7b \"path\": \"" ++ st.fWorkingDirectory ++ "\"\x7d"

/-- The outcome of one delivered message: the new session state and the
    observable effects, in order. -/
structure DispatchOut where
  state : State
  effects : List Effect
deriving DecidableEq

/-- The ten recognized commands of the dispatcher. -/
inductive Handler where
  | quitRoot
  | brreq
  | newcanvas
  | dblclk
  | runCommand
  | savefile
  | selectCanvas
  | closeCanvas
  | getworkdir
  | chdir
deriving DecidableEq

/-- The routing of RBrowser::WebWindowCallback: the if-else chain of literal
    comparisons and prefix tests, in source order; an unmatched message
    routes nowhere. -/
def route (arg : String) : Option Handler :=
  if arg = "QUIT_ROOT" then some .quitRoot
  else if strStarts "BRREQ:" arg then some .brreq
  else if arg = "NEWCANVAS" then some .newcanvas
  else if strStarts "DBLCLK:" arg then some .dblclk
  else if strStarts "RUNMACRO:" arg then some .runCommand
  else if strStarts "SAVEFILE:" arg then some .savefile
  else if strStarts "SELECT_CANVAS:" arg then some .selectCanvas
  else if strStarts "CLOSE_CANVAS:" arg then some .closeCanvas
  else if strStarts "GETWORKDIR:" arg then some .getworkdir
  else if strStarts "CHDIR:" arg then some .chdir
  else none

/-- RBrowser::WebWindowCallback: routes the message and runs the matched
    handler body; an unmatched message leaves the state unchanged and emits
    nothing. -/
def WebWindowCallback (env : Env) (st : State) (connid : Nat) (arg : String) :
    Except Fault DispatchOut :=
  match route arg with
  | some .quitRoot => .ok ⟨st, [.terminate]⟩
  | some .brreq =>
    let json := ProcessBrowserRequest env (strDrop arg 6)
    .ok ⟨st, if 0 < json.data.length then [.send connid json] else []⟩
  | some .newcanvas =>
    if st.fUseRCanvas then
      let r := AddRCanvas st
      let reply := ["root7", GetRCanvasUrl env r.2.2, r.2.2.fTitle]
      .ok ⟨r.1, r.2.1 ++ [.send connid ("CANVS:" ++ env.canvJson reply)]⟩
    else
      let r := AddCanvas st
      let reply := ["root6", GetCanvasUrl env r.2.2, r.2.2.fName]
      .ok ⟨r.1, r.2.1 ++ [.send connid ("CANVS:" ++ env.canvJson reply)]⟩
  | some .dblclk =>
    match strAt arg 8 with
    | none => .error (.stringAtOutOfRange 8 arg.data.length)
    | some c =>
      if c != '[' then
        let r := ProcessDblClick env st (strDrop arg 7) ""
        .ok ⟨r.1, r.2.1 ++ [.send connid r.2.2]⟩
      else
        match env.parseStrArr (strDrop arg 7) with
        | none => .ok ⟨st, []⟩
        | some arr =>
          match arr.get? 0 with
          | none => .error (.vectorIndexOutOfRange 0 arr.length)
          | some a0 =>
            match arr.get? 1 with
            | none => .error (.vectorIndexOutOfRange 1 arr.length)
            | some a1 =>
              let r := ProcessDblClick env st a0 a1
              .ok ⟨r.1, r.2.1 ++
                (if 0 < r.2.2.data.length then [.send connid r.2.2] else [])⟩
  | some .runCommand =>
    match ProcessRunCommand (strDrop arg 9) with
    | .error f => .error f
    | .ok file => .ok ⟨st, [.execMacroFile file]⟩
  | some .savefile =>
    match ProcessSaveFile (strDrop arg 9) with
    | .error f => .error f
    | .ok nc => .ok ⟨st, [.writeFile nc.1 nc.2]⟩
  | some .selectCanvas =>
    .ok ⟨{ st with fActiveCanvas := strDrop arg 14 }, []⟩
  | some .closeCanvas =>
    .ok ⟨CloseCanvas st (strDrop arg 13), []⟩
  | some .getworkdir =>
    .ok ⟨st, [.send connid (GetCurrentWorkingDirectory st)]⟩
  | some .chdir =>
    let wd := strDrop arg 6
    let st' := { st with fWorkingDirectory := wd }
    .ok ⟨st', [.setTopItem wd, .chDirSys wd,
               .send connid (GetCurrentWorkingDirectory st')]⟩
  | none => .ok ⟨st, []⟩

/-- The loop of RBrowser::Show over the existing connections, delivering the
    same message to each through WebWindowCallback; a fault stops the run. -/
def runCallbacks (env : Env) (arg : String) :
    State → List Nat → List Effect → Except Fault (State × List Effect)
  | st, [], acc => .ok (st, acc)
  | st, connid :: rest, acc =>
    match WebWindowCallback env st connid arg with
    | .error f => .error f
    | .ok out => runCallbacks env arg out.state rest (acc ++ out.effects)

/-- RBrowser::Show: with no connection, or when a fresh window is forced,
    shows the web window; otherwise it replays the literal message RELOAD
    through WebWindowCallback for every existing connection. -/
def Show (env : Env) (st : State) (always_start_new_browser : Bool) :
    Except Fault (State × List Effect) :=
  if st.connections.length = 0 ∨ always_start_new_browser then
    .ok (st, [.showWindow])
  else
    runCallbacks env "RELOAD" st st.connections []

/-- The session state before the first canvas is added. -/
def emptyState (use_rcanvas : Bool) (wd : String) : State :=
  ⟨wd, "", [], [], use_rcanvas, []⟩

/-- RBrowser::RBrowser: records the working directory and adds the first
    canvas, next-generation or legacy according to the flag. -/
def initState (use_rcanvas : Bool) (wd : String) : State :=
  if use_rcanvas then (AddRCanvas (emptyState true wd)).1
  else (AddCanvas (emptyState false wd)).1

/-- Session states reachable from the constructor by client connects and
    delivered messages whose handling completes without a fault. -/
inductive Reachable (env : Env) : State → Prop where
  | init (use_rcanvas : Bool) (wd : String) :
      Reachable env (initState use_rcanvas wd)
  | step (st st' : State) (effs : List Effect) (connid : Nat) (arg : String)
      (h : Reachable env st)
      (heq : WebWindowCallback env st connid arg = .ok ⟨st', effs⟩) :
      Reachable env st'
  | connect (st : State) (connid : Nat) (h : Reachable env st) :
      Reachable env { st with connections := st.connections ++ [connid] }

/-- Number of canvases whose name (legacy) or title (next-generation)
    equals the stored active-canvas string: the canvases the specification
    calls active. -/
def activeCount (st : State) : Nat :=
  st.fCanvases.countP (fun canv => st.fActiveCanvas == canv.fName) +
  st.fRCanvases.countP (fun canv => st.fActiveCanvas == canv.fTitle)

/-- Concrete oracle environment used to evaluate the model on closed
    inputs: every external parse fails and every serializer returns the
    empty string. -/
def env0 : Env :=
  ⟨fun _ => none, fun _ => none, fun _ => none, fun _ => "",
   fun _ => "", fun _ => "", fun _ => "", fun _ => ""⟩

/-- The message RELOAD matches no branch of the dispatcher: the state is
    unchanged and nothing is sent. -/
theorem reload_unmatched (env : Env) (st : State) (connid : Nat) :
    WebWindowCallback env st connid "RELOAD" = .ok ⟨st, []⟩ := rfl

/-- Replaying RELOAD over any connection list accumulates no effects. -/
theorem runCallbacks_reload (env : Env) (st : State) (l : List Nat)
    (acc : List Effect) :
    runCallbacks env "RELOAD" st l acc = .ok (st, acc) := by
  induction l generalizing acc with
  | nil => rfl
  | cons c cs ih =>
    show runCallbacks env "RELOAD" st cs (acc ++ []) = .ok (st, acc)
    rw [List.append_nil]
    exact ih acc

/-- Claim C1 (code bug): in every state with at least one existing display
    connection, Show without forcing a fresh window opens no second window,
    but it also re-sends nothing at all: the RELOAD message it replays
    through WebWindowCallback matches no dispatch branch, so the
    initialization listing of open canvases is never re-sent, contrary to
    the claim and to the comment on Show in the source. -/
theorem C1_show_reload_noop (env : Env) (st : State)
    (h : st.connections ≠ []) :
    (∀ connid, WebWindowCallback env st connid "RELOAD" = .ok ⟨st, []⟩)
    ∧ Show env st false = .ok (st, []) := by
  refine ⟨fun connid => rfl, ?_⟩
  unfold Show
  rw [if_neg, runCallbacks_reload]
  simp only [List.length_eq_zero]
  rintro (hc | hc)
  · exact h hc
  · exact Bool.false_ne_true hc

/-- Witness for C1 at a concrete session state with one connection. -/
theorem C1_witness :
    (⟨"w", "", [], [], false, [7]⟩ : State).connections ≠ []
    ∧ ((∀ connid, WebWindowCallback env0 ⟨"w", "", [], [], false, [7]⟩ connid "RELOAD"
          = .ok ⟨⟨"w", "", [], [], false, [7]⟩, []⟩)
       ∧ Show env0 ⟨"w", "", [], [], false, [7]⟩ false
          = .ok (⟨"w", "", [], [], false, [7]⟩, [])) :=
  ⟨by decide, C1_show_reload_noop env0 ⟨"w", "", [], [], false, [7]⟩ (by decide)⟩

/-- Claim C6 counterexample to the exact reply claimed: handling CHDIR:/tmp
    and then GETWORKDIR: sends a reply with a space after the opening brace,
    which differs from the byte string the claim gives. -/
theorem C6_counterexample :
    (WebWindowCallback env0 ⟨"w", "", [], [], false, []⟩ 1 "CHDIR:/tmp"
       = .ok ⟨⟨"/tmp", "", [], [], false, []⟩,
              [.setTopItem "/tmp", .chDirSys "/tmp",
               .send 1 "GETWORKDIR: \x7b \"path\": \"/tmp\"\x7d"]⟩)
    ∧ (WebWindowCallback env0 ⟨"/tmp", "", [], [], false, []⟩ 1 "GETWORKDIR:"
       = .ok ⟨⟨"/tmp", "", [], [], false, []⟩,
              [.send 1 "GETWORKDIR: \x7b \"path\": \"/tmp\"\x7d"]⟩)
    ∧ "GETWORKDIR: \x7b \"path\": \"/tmp\"\x7d"
        ≠ "GETWORKDIR: \x7b\"path\": \"/tmp\"\x7d" := by
  refine ⟨rfl, rfl, ?_⟩
  decide

/-- Claim C6 (amended: the reply carries a space after the opening brace):
    for every path p, handling CHDIR:p stores p as the working directory,
    re-roots the browse tree at p, and replies with the GETWORKDIR reply for
    p; a following GETWORKDIR: sends that same reply. -/
theorem C6_chdir_getworkdir (env : Env) (st : State) (connid : Nat)
    (p : String) :
    WebWindowCallback env st connid ("CHDIR:" ++ p)
      = .ok ⟨{ st with fWorkingDirectory := p },
             [.setTopItem p, .chDirSys p,
              .send connid ("GETWORKDIR: \x7b \"path\": \"" ++ p ++ "\"\x7d")]⟩
    ∧ WebWindowCallback env { st with fWorkingDirectory := p } connid
        "GETWORKDIR:"
      = .ok ⟨{ st with fWorkingDirectory := p },
             [.send connid ("GETWORKDIR: \x7b \"path\": \"" ++ p ++ "\"\x7d")]⟩ := by
  obtain ⟨d⟩ := p
  exact ⟨rfl, rfl⟩

/-- Claim C7 counterexample to the claim as stated: the message DBLCLK:
    consists of 7 characters, not 8; the dispatcher nevertheless evaluates
    index 8 of it and faults in the total embedding. -/
theorem C7_counterexample :
    ("DBLCLK:" : String).data.length = 7
    ∧ ("DBLCLK:" : String).data.length ≠ 8
    ∧ WebWindowCallback env0 ⟨"w", "", [], [], false, []⟩ 1 "DBLCLK:"
        = .error (.stringAtOutOfRange 8 7) := by decide

/-- Claim C7 (amended: the message has 7 characters and index 8 lies beyond
    its end): dispatching the bare message DBLCLK: evaluates arg.at(8); in
    the total embedding this is the out-of-range fault, so handling this
    message is not a silent no-op. -/
theorem C7_dblclk_empty_payload (env : Env) (st : State) (connid : Nat) :
    WebWindowCallback env st connid "DBLCLK:"
      = .error (.stringAtOutOfRange 8 7)
    ∧ ∀ out, WebWindowCallback env st connid "DBLCLK:" ≠ .ok out := by
  refine ⟨rfl, ?_⟩
  intro out h
  rw [(rfl : WebWindowCallback env st connid "DBLCLK:"
        = Except.error (Fault.stringAtOutOfRange 8 7))] at h
  exact Except.noConfusion h

/-- A takeWhile over elements that all satisfy the predicate is the whole
    list. -/
theorem takeWhile_all (p : Char → Bool) :
    ∀ l : List Char, (∀ c ∈ l, p c = true) → l.takeWhile p = l := by
  intro l
  induction l with
  | nil => intro _; rfl
  | cons a t ih =>
    intro h
    rw [List.takeWhile_cons, h a (List.mem_cons_self a t),
        ih fun c hc => h c (List.mem_cons_of_mem a hc), if_pos rfl]

/-- A takeWhile over a list of satisfying elements followed by a stopping
    element returns exactly the leading elements. -/
theorem takeWhile_append_stop (p : Char → Bool) (x : Char) (hx : p x = false) :
    ∀ (l r : List Char), (∀ c ∈ l, p c = true) →
      (l ++ x :: r).takeWhile p = l := by
  intro l
  induction l with
  | nil => intro r _; simp [List.takeWhile_cons, hx]
  | cons a t ih =>
    intro r h
    rw [List.cons_append, List.takeWhile_cons, h a (List.mem_cons_self a t),
        ih r fun c hc => h c (List.mem_cons_of_mem a hc), if_pos rfl]

/-- The dropWhile companion of takeWhile_append_stop. -/
theorem dropWhile_append_stop (p : Char → Bool) (x : Char) (hx : p x = false) :
    ∀ (l r : List Char), (∀ c ∈ l, p c = true) →
      (l ++ x :: r).dropWhile p = x :: r := by
  intro l
  induction l with
  | nil => intro r _; simp [List.dropWhile_cons, hx]
  | cons a t ih =>
    intro r h
    rw [List.cons_append, List.dropWhile_cons, h a (List.mem_cons_self a t)]
    simp only [if_true]
    exact ih r fun c hc => h c (List.mem_cons_of_mem a hc)

/-- A dropWhile over elements that all satisfy the predicate drops the whole
    list. -/
theorem dropWhile_all (p : Char → Bool) :
    ∀ l : List Char, (∀ c ∈ l, p c = true) → l.dropWhile p = [] := by
  intro l
  induction l with
  | nil => intro _; rfl
  | cons a t ih =>
    intro h
    rw [List.dropWhile_cons, h a (List.mem_cons_self a t)]
    simp only [if_true]
    exact ih fun c hc => h c (List.mem_cons_of_mem a hc)

/-- With no colon in a nonempty payload, the first getline consumes
    everything and the second extracts nothing: the split has exactly one
    element. -/
theorem saveFileSplit_no_colon (payload : String) (h1 : payload.data ≠ [])
    (h2 : ∀ c ∈ payload.data, c ≠ ':') :
    saveFileSplit payload = [payload] := by
  obtain ⟨d⟩ := payload
  have hall : ∀ c ∈ d, ((c != ':') = true) := by
    intro c hc
    simpa using h2 c hc
  unfold saveFileSplit
  rw [if_neg h1]
  simp only [takeWhile_all _ _ hall, dropWhile_all _ _ hall, List.drop_nil,
    if_pos rfl, if_true]

/-- For a payload name colon content with a colon-free name and a nonempty
    NUL-free content, the split is exactly the pair. -/
theorem saveFileSplit_named (name content : String)
    (hn : ∀ c ∈ name.data, c ≠ ':') (hc : content.data ≠ [])
    (hz : ∀ c ∈ content.data, c ≠ '\x00') :
    saveFileSplit (name ++ ":" ++ content) = [name, content] := by
  obtain ⟨nd⟩ := name
  obtain ⟨cd⟩ := content
  have hdata : (String.mk nd ++ ":" ++ String.mk cd).data = nd ++ ':' :: cd := by
    show (nd ++ [':']) ++ cd = nd ++ ':' :: cd
    rw [List.append_assoc]
    rfl
  have hbn : ∀ c ∈ nd, ((c != ':') = true) := by
    intro c hcm
    simpa using hn c hcm
  have hbz : ∀ c ∈ cd, ((c != '\x00') = true) := by
    intro c hcm
    simpa using hz c hcm
  unfold saveFileSplit
  rw [hdata, if_neg (by simp)]
  simp only [takeWhile_append_stop _ ':' (by decide) nd cd hbn,
    dropWhile_append_stop _ ':' (by decide) nd cd hbn,
    List.drop_one, List.tail_cons]
  rw [if_neg hc, takeWhile_all _ cd hbz]

/-- The split of a no-colon payload leaves split[1] out of range. -/
theorem ProcessSaveFile_no_colon (payload : String) (h1 : payload.data ≠ [])
    (h2 : ∀ c ∈ payload.data, c ≠ ':') :
    ProcessSaveFile payload = .error (.vectorIndexOutOfRange 1 1) := by
  unfold ProcessSaveFile
  rw [saveFileSplit_no_colon payload h1 h2]
  rfl

/-- The well-formed save payload writes exactly the named file. -/
theorem ProcessSaveFile_named (name content : String)
    (hn : ∀ c ∈ name.data, c ≠ ':') (hc : content.data ≠ [])
    (hz : ∀ c ∈ content.data, c ≠ '\x00') :
    ProcessSaveFile (name ++ ":" ++ content) = .ok (name, content) := by
  unfold ProcessSaveFile
  rw [saveFileSplit_named name content hn hc hz]
  rfl

/-- Claim C8 counterexample to the claim as stated: the empty payload
    contains no colon separator, yet the split it builds has zero elements,
    not one, and the out-of-range access is split[0]. -/
theorem C8_counterexample :
    saveFileSplit "" = []
    ∧ (saveFileSplit "").length ≠ 1
    ∧ ProcessSaveFile "" = .error (.vectorIndexOutOfRange 0 0)
    ∧ WebWindowCallback env0 ⟨"w", "", [], [], false, []⟩ 1 "SAVEFILE:"
        = .error (.vectorIndexOutOfRange 0 0) := by decide

/-- Claim C8 (amended: for every nonempty payload without a colon; the
    empty payload instead yields a zero-element split whose faulting access
    is split[0]): the split has exactly one element and reading split[1]
    is out of bounds, so the no-separator case is not handled. -/
theorem C8_savefile_no_separator (payload : String)
    (h1 : payload.data ≠ []) (h2 : ∀ c ∈ payload.data, c ≠ ':') :
    saveFileSplit payload = [payload]
    ∧ ProcessSaveFile payload = .error (.vectorIndexOutOfRange 1 1) :=
  ⟨saveFileSplit_no_colon payload h1 h2, ProcessSaveFile_no_colon payload h1 h2⟩

/-- Witness for C8 at the concrete payload abc. -/
theorem C8_witness :
    ("abc" : String).data ≠ []
    ∧ (∀ c ∈ ("abc" : String).data, c ≠ ':')
    ∧ (saveFileSplit "abc" = ["abc"]
       ∧ ProcessSaveFile "abc" = .error (.vectorIndexOutOfRange 1 1)) :=
  ⟨by decide, by decide, C8_savefile_no_separator "abc" (by decide) (by decide)⟩

/-- Claim C10 counterexample to the claim as stated: the payload
    foo.txt: has the form name colon content with empty content, yet the
    handler faults on the out-of-range split[1] and writes nothing. -/
theorem C10_counterexample :
    saveFileSplit "foo.txt:" = ["foo.txt"]
    ∧ ProcessSaveFile "foo.txt:" = .error (.vectorIndexOutOfRange 1 1)
    ∧ WebWindowCallback env0 ⟨"w", "", [], [], false, []⟩ 1 "SAVEFILE:foo.txt:"
        = .error (.vectorIndexOutOfRange 1 1) := by decide

/-- Claim C10 (amended: for a colon-free name and a nonempty content
    without NUL characters; with empty content the handler instead faults on
    the out-of-range split[1]): handling SAVEFILE name colon content writes
    the file name with exactly that content, later colons and line breaks
    included. -/
theorem C10_savefile_amended (env : Env) (st : State) (connid : Nat)
    (name content : String)
    (hn : ∀ c ∈ name.data, c ≠ ':') (hc : content.data ≠ [])
    (hz : ∀ c ∈ content.data, c ≠ '\x00') :
    WebWindowCallback env st connid ("SAVEFILE:" ++ (name ++ ":" ++ content))
      = .ok ⟨st, [.writeFile name content]⟩ := by
  have hdisp : WebWindowCallback env st connid
      ("SAVEFILE:" ++ (name ++ ":" ++ content))
      = (match ProcessSaveFile (name ++ ":" ++ content) with
         | .error f => (.error f : Except Fault DispatchOut)
         | .ok nc => .ok ⟨st, [.writeFile nc.1 nc.2]⟩) := by
    obtain ⟨nd⟩ := name
    obtain ⟨cd⟩ := content
    rfl
  rw [hdisp, ProcessSaveFile_named name content hn hc hz]

/-- Witness for C10 at the spec example payload. -/
theorem C10_witness :
    (∀ c ∈ ("foo.txt" : String).data, c ≠ ':')
    ∧ ("hello" : String).data ≠ []
    ∧ (∀ c ∈ ("hello" : String).data, c ≠ '\x00')
    ∧ WebWindowCallback env0 ⟨"w", "", [], [], false, []⟩ 1
        ("SAVEFILE:" ++ ("foo.txt" ++ ":" ++ "hello"))
        = .ok ⟨⟨"w", "", [], [], false, []⟩, [.writeFile "foo.txt" "hello"]⟩ :=
  ⟨by decide, by decide, by decide,
   C10_savefile_amended env0 ⟨"w", "", [], [], false, []⟩ 1 "foo.txt" "hello"
     (by decide) (by decide) (by decide)⟩

/-- Claim C9 (confirmed): when the resolved element of a double-clicked
    path has text content, the reply is exactly FREAD: followed by that
    content, the state is unchanged and no canvas effect is emitted. -/
theorem C9_dblclick_text (env : Env) (st : State) (path opts : String)
    (elem : Element) (txt : String)
    (he : env.getElement path = some elem) (ht : elem.textContent = some txt) :
    ProcessDblClick env st path opts = (st, [], "FREAD:" ++ txt) := by
  simp [ProcessDblClick, he, ht]

/-- Concrete oracle environment whose tree lookup always yields a text
    element. -/
def env9 : Env :=
  ⟨fun _ => none, fun _ => none, fun _ => some ⟨some "hello", none⟩,
   fun _ => "", fun _ => "", fun _ => "", fun _ => "", fun _ => ""⟩

/-- Witness for C9 at a concrete tree element with text content. -/
theorem C9_witness :
    env9.getElement "f.txt" = some ⟨some "hello", none⟩
    ∧ (Element.mk (some "hello") none).textContent = some "hello"
    ∧ ProcessDblClick env9 ⟨"w", "", [], [], false, []⟩ "f.txt" ""
        = (⟨"w", "", [], [], false, []⟩, [], "FREAD:hello") :=
  ⟨rfl, rfl,
   C9_dblclick_text env9 ⟨"w", "", [], [], false, []⟩ "f.txt" ""
     ⟨some "hello", none⟩ "hello" rfl rfl⟩

/-- A list without the searched name is left unchanged by the erase. -/
theorem eraseFirstByName_not_mem (name : String) :
    ∀ l : List TCanvas, (∀ c ∈ l, c.fName ≠ name) →
      eraseFirstByName name l = l := by
  intro l
  induction l with
  | nil => intro _; rfl
  | cons c cs ih =>
    intro h
    unfold eraseFirstByName
    rw [if_neg, ih fun d hd => h d (List.mem_cons_of_mem c hd)]
    simp only [beq_iff_eq]
    exact fun heq => h c (List.mem_cons_self c cs) heq.symm

/-- The erase removes exactly the first canvas carrying the name. -/
theorem eraseFirstByName_found (name : String) :
    ∀ (pre : List TCanvas) (c : TCanvas) (suf : List TCanvas),
      (∀ d ∈ pre, d.fName ≠ name) → c.fName = name →
      eraseFirstByName name (pre ++ c :: suf) = pre ++ suf := by
  intro pre
  induction pre with
  | nil =>
    intro c suf _ hc
    show eraseFirstByName name (c :: suf) = suf
    unfold eraseFirstByName
    rw [if_pos]
    simp only [beq_iff_eq]
    exact hc.symm
  | cons d ds ih =>
    intro c suf hpre hc
    show eraseFirstByName name (d :: (ds ++ c :: suf)) = d :: (ds ++ suf)
    unfold eraseFirstByName
    rw [if_neg, ih c suf (fun e he => hpre e (List.mem_cons_of_mem d he)) hc]
    simp only [beq_iff_eq]
    exact fun heq => hpre d (List.mem_cons_self d ds) heq.symm

/-- Claim C2 counterexample to the claim as stated: closing a canvas that
    lives in the next-generation list does not remove it; only the
    active-canvas name is cleared. -/
theorem C2_counterexample :
    (CloseCanvas ⟨"w", "rcanv1", [], [⟨"rcanv1", []⟩], true, []⟩
        "rcanv1").fRCanvases = [⟨"rcanv1", []⟩]
    ∧ (CloseCanvas ⟨"w", "rcanv1", [], [⟨"rcanv1", []⟩], true, []⟩
        "rcanv1").fActiveCanvas = ""
    ∧ WebWindowCallback env0 ⟨"w", "rcanv1", [], [⟨"rcanv1", []⟩], true, []⟩ 1
        "CLOSE_CANVAS:rcanv1"
      = .ok ⟨⟨"w", "", [], [⟨"rcanv1", []⟩], true, []⟩, []⟩ := by decide

/-- Claim C2 (amended: only the legacy list is searched, so a
    next-generation canvas with the name is never removed): handling
    CLOSE_CANVAS with a name erases exactly the first legacy canvas with
    that name, leaves every other canvas and the whole next-generation list
    unchanged, emits nothing, and clears the active-canvas name exactly when
    it equals the given name. -/
theorem C2_close_canvas_amended (env : Env) (st : State) (connid : Nat)
    (name : String) :
    WebWindowCallback env st connid ("CLOSE_CANVAS:" ++ name)
      = .ok ⟨CloseCanvas st name, []⟩
    ∧ (CloseCanvas st name).fRCanvases = st.fRCanvases
    ∧ (CloseCanvas st name).fActiveCanvas
        = (if st.fActiveCanvas = name then "" else st.fActiveCanvas)
    ∧ ((∀ c ∈ st.fCanvases, c.fName ≠ name) →
        (CloseCanvas st name).fCanvases = st.fCanvases)
    ∧ (∀ pre c suf, st.fCanvases = pre ++ c :: suf →
        (∀ d ∈ pre, d.fName ≠ name) → c.fName = name →
        (CloseCanvas st name).fCanvases = pre ++ suf) := by
  refine ⟨by obtain ⟨d⟩ := name; rfl, rfl, ?_, ?_, ?_⟩
  · show (if (st.fActiveCanvas == name) = true then "" else st.fActiveCanvas)
        = if st.fActiveCanvas = name then "" else st.fActiveCanvas
    simp only [beq_iff_eq]
  · intro h
    exact eraseFirstByName_not_mem name st.fCanvases h
  · intro pre c suf hsplit hpre hc
    show eraseFirstByName name st.fCanvases = pre ++ suf
    rw [hsplit]
    exact eraseFirstByName_found name pre c suf hpre hc

/-- Witness for C2 at a concrete two-canvas registry. -/
theorem C2_witness :
    ((⟨"w", "webcanv1",
        [⟨"webcanv1", "webcanv1", []⟩, ⟨"webcanv2", "webcanv2", []⟩],
        [], false, []⟩ : State).fCanvases
      = [] ++ ⟨"webcanv1", "webcanv1", []⟩ :: [⟨"webcanv2", "webcanv2", []⟩])
    ∧ (∀ d ∈ ([] : List TCanvas), d.fName ≠ "webcanv1")
    ∧ (TCanvas.mk "webcanv1" "webcanv1" []).fName = "webcanv1"
    ∧ (CloseCanvas ⟨"w", "webcanv1",
        [⟨"webcanv1", "webcanv1", []⟩, ⟨"webcanv2", "webcanv2", []⟩],
        [], false, []⟩ "webcanv1").fCanvases
      = [] ++ [⟨"webcanv2", "webcanv2", []⟩] :=
  ⟨rfl, by decide, rfl,
   (C2_close_canvas_amended env0 ⟨"w", "webcanv1",
      [⟨"webcanv1", "webcanv1", []⟩, ⟨"webcanv2", "webcanv2", []⟩],
      [], false, []⟩ 1 "webcanv1").2.2.2.2
     [] ⟨"webcanv1", "webcanv1", []⟩ [⟨"webcanv2", "webcanv2", []⟩]
     rfl (by decide) rfl⟩

/-- Claim C4 counterexample to the claim as stated: after creating two
    legacy canvases and closing webcanv1, the next creation again receives
    the name webcanv2, so two canvases ever created share a name. -/
theorem C4_counterexample :
    (AddCanvas (AddCanvas (emptyState false "w")).1).2.2.fName = "webcanv2"
    ∧ (AddCanvas (CloseCanvas
        (AddCanvas (AddCanvas (emptyState false "w")).1).1
        "webcanv1")).2.2.fName = "webcanv2" := by decide

/-- Claim C4 (amended: the naming formula holds, but since the counter is
    the list length at creation time, a name can be reused after a deletion
    and two canvases ever created may share one name): every created legacy
    canvas is named webcanvN and every next-generation one rcanvN with N
    the current list length plus one, the new canvas becomes active and is
    appended, and a create-create-close-create run reuses webcanv2. -/
theorem C4_names_amended :
    (∀ st : State,
        (AddCanvas st).2.2.fName = "webcanv" ++ toString (st.fCanvases.length + 1)
        ∧ (AddCanvas st).2.2.fTitle = (AddCanvas st).2.2.fName
        ∧ (AddCanvas st).1.fCanvases = st.fCanvases ++ [(AddCanvas st).2.2]
        ∧ (AddCanvas st).1.fActiveCanvas = (AddCanvas st).2.2.fName)
    ∧ (∀ st : State,
        (AddRCanvas st).2.2.fTitle = "rcanv" ++ toString (st.fRCanvases.length + 1)
        ∧ (AddRCanvas st).1.fRCanvases = st.fRCanvases ++ [(AddRCanvas st).2.2]
        ∧ (AddRCanvas st).1.fActiveCanvas = (AddRCanvas st).2.2.fTitle)
    ∧ (AddCanvas (AddCanvas (emptyState false "w")).1).2.2.fName
        = (AddCanvas (CloseCanvas
            (AddCanvas (AddCanvas (emptyState false "w")).1).1
            "webcanv1")).2.2.fName :=
  ⟨fun _ => ⟨rfl, rfl, rfl, rfl⟩, fun _ => ⟨rfl, rfl, rfl⟩, by decide⟩

/-- Claim C3 counterexample to the claim as stated: the message DBLCLK:[
    carries the malformed JSON payload [, yet handling it is not a silent
    no-op: the dispatcher faults on the out-of-range index 8 before even
    reaching the JSON parser. -/
theorem C3_counterexample :
    env0.parseStrArr "[" = none
    ∧ route "DBLCLK:[" = some Handler.dblclk
    ∧ WebWindowCallback env0 ⟨"w", "", [], [], false, []⟩ 1 "DBLCLK:["
        = .error (.stringAtOutOfRange 8 8)
    ∧ WebWindowCallback env0 ⟨"w", "", [], [], false, []⟩ 1 "DBLCLK:["
        ≠ .ok ⟨⟨"w", "", [], [], false, []⟩, []⟩ := by decide

/-- Claim C3 (amended: routing is to at most one handler and unmatched
    messages are silent no-ops with no reply and no state change; a
    malformed JSON payload of BRREQ is dropped silently; for DBLCLK the
    JSON array branch is taken only when the character of the message at
    index 8 is the opening bracket, and a malformed payload is dropped
    silently exactly there; when index 8 holds any other character the
    payload is treated as a plain path and the reply, even the empty one,
    is sent unconditionally, so such messages are not silent even when the
    payload is malformed JSON; and a DBLCLK message shorter than nine
    characters faults on the out-of-range index). -/
theorem C3_dispatch_amended (env : Env) (st : State) (connid : Nat) :
    (∀ arg h1 h2, route arg = some h1 → route arg = some h2 → h1 = h2)
    ∧ (∀ arg, route arg = none →
        WebWindowCallback env st connid arg = .ok ⟨st, []⟩)
    ∧ (∀ payload, payload ≠ "" → env.parseRequest payload = none →
        WebWindowCallback env st connid ("BRREQ:" ++ payload) = .ok ⟨st, []⟩)
    ∧ (∀ payload, strAt ("DBLCLK:" ++ payload) 8 = some '[' →
        env.parseStrArr payload = none →
        WebWindowCallback env st connid ("DBLCLK:" ++ payload) = .ok ⟨st, []⟩)
    ∧ (∀ payload c, strAt ("DBLCLK:" ++ payload) 8 = some c → c ≠ '[' →
        WebWindowCallback env st connid ("DBLCLK:" ++ payload)
          = .ok ⟨(ProcessDblClick env st payload "").1,
                 (ProcessDblClick env st payload "").2.1
                   ++ [.send connid (ProcessDblClick env st payload "").2.2]⟩) := by
  refine ⟨?_, ?_, ?_, ?_, ?_⟩
  · intro arg h1 h2 e1 e2
    exact Option.some.inj (e1.symm.trans e2)
  · intro arg hr
    unfold WebWindowCallback
    rw [hr]
  · intro payload hne hp
    have hpb : ProcessBrowserRequest env payload = "" := by
      unfold ProcessBrowserRequest
      rw [if_neg hne, hp]
    have hdisp : WebWindowCallback env st connid ("BRREQ:" ++ payload)
        = .ok ⟨st, if 0 < (ProcessBrowserRequest env payload).data.length
                   then [.send connid (ProcessBrowserRequest env payload)]
                   else []⟩ := by
      obtain ⟨d⟩ := payload
      rfl
    rw [hdisp, hpb]
    rfl
  · intro payload ha hp
    obtain ⟨d⟩ := payload
    have hroute : route ("DBLCLK:" ++ String.mk d) = some Handler.dblclk := by
      rfl
    have hstr : strDrop ("DBLCLK:" ++ String.mk d) 7 = String.mk d := rfl
    simp only [WebWindowCallback, hroute, ha, hstr, hp]
    rfl
  · intro payload c ha hc
    obtain ⟨d⟩ := payload
    have hroute : route ("DBLCLK:" ++ String.mk d) = some Handler.dblclk := by
      rfl
    have hstr : strDrop ("DBLCLK:" ++ String.mk d) 7 = String.mk d := rfl
    simp only [WebWindowCallback, hroute, ha, hstr]
    rw [if_pos (bne_iff_ne.mpr hc)]

/-- Witness for C3 at an unmatched message, a malformed BRREQ payload and a
    DBLCLK message whose malformed payload is treated as a plain path and
    answered with an unconditional (empty) send. -/
theorem C3_witness :
    route "HELLO" = none
    ∧ ("garbage" : String) ≠ ""
    ∧ env0.parseRequest "garbage" = none
    ∧ strAt ("DBLCLK:" ++ "[x") 8 = some 'x'
    ∧ ('x' : Char) ≠ '['
    ∧ WebWindowCallback env0 ⟨"w", "", [], [], false, []⟩ 1 "HELLO"
        = .ok ⟨⟨"w", "", [], [], false, []⟩, []⟩
    ∧ WebWindowCallback env0 ⟨"w", "", [], [], false, []⟩ 1 ("BRREQ:" ++ "garbage")
        = .ok ⟨⟨"w", "", [], [], false, []⟩, []⟩
    ∧ WebWindowCallback env0 ⟨"w", "", [], [], false, []⟩ 1 ("DBLCLK:" ++ "[x")
        = .ok ⟨(ProcessDblClick env0 ⟨"w", "", [], [], false, []⟩ "[x" "").1,
               (ProcessDblClick env0 ⟨"w", "", [], [], false, []⟩ "[x" "").2.1
                 ++ [.send 1 (ProcessDblClick env0 ⟨"w", "", [], [], false, []⟩ "[x" "").2.2]⟩ :=
  ⟨rfl, by decide, rfl, rfl, by decide,
   (C3_dispatch_amended env0 ⟨"w", "", [], [], false, []⟩ 1).2.1 "HELLO" rfl,
   (C3_dispatch_amended env0 ⟨"w", "", [], [], false, []⟩ 1).2.2.1 "garbage"
     (by decide) rfl,
   (C3_dispatch_amended env0 ⟨"w", "", [], [], false, []⟩ 1).2.2.2.2 "[x" 'x'
     rfl (by decide)⟩

/-- Claim C5 counterexample to the claim as stated: the session state after
    creating a second canvas, closing webcanv1 and creating again is
    reachable, and in it two canvases carry the active name webcanv2, so
    more than one canvas is active under the name-equality reading. -/
theorem C5_counterexample :
    Reachable env0 ⟨"w", "webcanv2",
      [⟨"webcanv2", "webcanv2", []⟩, ⟨"webcanv2", "webcanv2", []⟩],
      [], false, []⟩
    ∧ activeCount ⟨"w", "webcanv2",
      [⟨"webcanv2", "webcanv2", []⟩, ⟨"webcanv2", "webcanv2", []⟩],
      [], false, []⟩ = 2 := by
  refine ⟨?_, by decide⟩
  have h0 : Reachable env0 (initState false "w") := Reachable.init false "w"
  have h1 : Reachable env0 ⟨"w", "webcanv2",
      [⟨"webcanv1", "webcanv1", []⟩, ⟨"webcanv2", "webcanv2", []⟩],
      [], false, []⟩ :=
    Reachable.step (initState false "w") _
      [.showEmbed "webcanv2", .send 1 "CANVS:"] 1 "NEWCANVAS" h0 (by decide)
  have h2 : Reachable env0 ⟨"w", "webcanv2",
      [⟨"webcanv2", "webcanv2", []⟩], [], false, []⟩ :=
    Reachable.step _ _ [] 1 "CLOSE_CANVAS:webcanv1" h1 (by decide)
  exact Reachable.step _ _
    [.showEmbed "webcanv2", .send 1 "CANVS:"] 1 "NEWCANVAS" h2 (by decide)

/-- A string starts with itself extended by anything. -/
theorem strStarts_self_append (p q : String) : strStarts p (p ++ q) = true := by
  obtain ⟨pd⟩ := p
  obtain ⟨qd⟩ := q
  show listStarts pd (pd ++ qd) = true
  induction pd with
  | nil => rfl
  | cons a t ih =>
    show (a == a && listStarts t (t ++ qd)) = true
    rw [ih]
    simp

/-- Transport of a pointwise property along an equality of mapped lists. -/
theorem all_of_map_eq {α β : Type} (P : β → Prop) (f : α → β)
    (l l' : List α) (hmap : l'.map f = l.map f)
    (h : ∀ a ∈ l, P (f a)) : ∀ a ∈ l', P (f a) := by
  intro a ha
  have hmem : f a ∈ l.map f := by
    rw [← hmap]
    exact List.mem_map_of_mem f ha
  obtain ⟨a0, ha0, he⟩ := List.mem_map.mp hmem
  rw [← he]
  exact h a0 ha0

/-- Redrawing the primitives of the active legacy canvas changes no name. -/
theorem names_setFirstCanvas (act : String) (prims : List (TObj × String)) :
    ∀ l : List TCanvas,
      (setFirstCanvasPrimitives act prims l).map TCanvas.fName
        = l.map TCanvas.fName := by
  intro l
  induction l with
  | nil => rfl
  | cons c cs ih =>
    unfold setFirstCanvasPrimitives
    by_cases h : (act == c.fName) = true
    · rw [if_pos h]
      rfl
    · rw [if_neg h]
      simp only [List.map_cons, ih]

/-- Redrawing the primitives of the active RCanvas changes no title. -/
theorem names_setFirstRCanvas (act : String) (prims : List TObj) :
    ∀ l : List RCanvas,
      (setFirstRCanvasPrimitives act prims l).map RCanvas.fTitle
        = l.map RCanvas.fTitle := by
  intro l
  induction l with
  | nil => rfl
  | cons c cs ih =>
    unfold setFirstRCanvasPrimitives
    by_cases h : (act == c.fTitle) = true
    · rw [if_pos h]
      rfl
    · rw [if_neg h]
      simp only [List.map_cons, ih]

/-- Everything preserved by the close erase was already in the list. -/
theorem mem_eraseFirstByName (name : String) :
    ∀ (l : List TCanvas) (c : TCanvas),
      c ∈ eraseFirstByName name l → c ∈ l := by
  intro l
  induction l with
  | nil => intro c hc; exact absurd hc (List.not_mem_nil c)
  | cons d ds ih =>
    intro c hc
    unfold eraseFirstByName at hc
    by_cases h : (name == d.fName) = true
    · rw [if_pos h] at hc
      exact List.mem_cons_of_mem d hc
    · rw [if_neg h] at hc
      rcases List.mem_cons.mp hc with h1 | h1
      · rw [h1]
        exact List.mem_cons_self d ds
      · exact List.mem_cons_of_mem d (ih c h1)

/-- Names invariant: every legacy canvas name starts with webcanv and every
    next-generation title with rcanv. -/
def canvNamesOk (st : State) : Prop :=
  (∀ c ∈ st.fCanvases, strStarts "webcanv" c.fName = true)
  ∧ (∀ r ∈ st.fRCanvases, strStarts "rcanv" r.fTitle = true)

/-- AddCanvas preserves the names invariant. -/
theorem canvNamesOk_AddCanvas (st : State) (h : canvNamesOk st) :
    canvNamesOk (AddCanvas st).1 := by
  refine ⟨?_, h.2⟩
  intro c hc
  rcases List.mem_append.mp hc with h1 | h1
  · exact h.1 c h1
  · rw [List.mem_singleton] at h1
    rw [h1]
    exact strStarts_self_append "webcanv" (toString (st.fCanvases.length + 1))

/-- AddRCanvas preserves the names invariant. -/
theorem canvNamesOk_AddRCanvas (st : State) (h : canvNamesOk st) :
    canvNamesOk (AddRCanvas st).1 := by
  refine ⟨h.1, ?_⟩
  intro r hr
  rcases List.mem_append.mp hr with h1 | h1
  · exact h.2 r h1
  · rw [List.mem_singleton] at h1
    rw [h1]
    exact strStarts_self_append "rcanv" (toString (st.fRCanvases.length + 1))

/-- The constructor establishes the names invariant. -/
theorem canvNamesOk_init (use_rc : Bool) (wd : String) :
    canvNamesOk (initState use_rc wd) := by
  have hempty : ∀ b, canvNamesOk (emptyState b wd) := fun b =>
    ⟨fun c hc => absurd hc (List.not_mem_nil c),
     fun r hr => absurd hr (List.not_mem_nil r)⟩
  cases use_rc with
  | false => exact canvNamesOk_AddCanvas (emptyState false wd) (hempty false)
  | true => exact canvNamesOk_AddRCanvas (emptyState true wd) (hempty true)

/-- CloseCanvas preserves the names invariant. -/
theorem canvNamesOk_CloseCanvas (st : State) (name : String)
    (h : canvNamesOk st) : canvNamesOk (CloseCanvas st name) := by
  refine ⟨?_, h.2⟩
  intro c hc
  exact h.1 c (mem_eraseFirstByName name st.fCanvases c hc)

/-- ProcessDblClick preserves the names invariant. -/
theorem canvNamesOk_ProcessDblClick (env : Env) (st : State) (p o : String)
    (h : canvNamesOk st) : canvNamesOk (ProcessDblClick env st p o).1 := by
  unfold ProcessDblClick
  split
  · exact h
  · split
    · exact h
    · split
      · exact h
      · split
        · refine ⟨?_, h.2⟩
          exact all_of_map_eq (fun n => strStarts "webcanv" n = true)
            TCanvas.fName st.fCanvases _
            (names_setFirstCanvas st.fActiveCanvas _ st.fCanvases) h.1
        · split
          · refine ⟨h.1, ?_⟩
            exact all_of_map_eq (fun n => strStarts "rcanv" n = true)
              RCanvas.fTitle st.fRCanvases _
              (names_setFirstRCanvas st.fActiveCanvas _ st.fRCanvases) h.2
          · exact h

/-- Every fault-free dispatch step preserves the names invariant. -/
theorem canvNamesOk_step (env : Env) (st st' : State) (effs : List Effect)
    (connid : Nat) (arg : String)
    (heq : WebWindowCallback env st connid arg = .ok ⟨st', effs⟩)
    (h : canvNamesOk st) : canvNamesOk st' := by
  cases hr : route arg with
  | none =>
    have hb : WebWindowCallback env st connid arg = .ok ⟨st, []⟩ := by
      unfold WebWindowCallback
      rw [hr]
    rw [hb] at heq
    simp only [Except.ok.injEq, DispatchOut.mk.injEq] at heq
    exact heq.1 ▸ h
  | some hd =>
    cases hd with
    | quitRoot =>
      have hb : WebWindowCallback env st connid arg = .ok ⟨st, [.terminate]⟩ := by
        unfold WebWindowCallback
        rw [hr]
      rw [hb] at heq
      simp only [Except.ok.injEq, DispatchOut.mk.injEq] at heq
      exact heq.1 ▸ h
    | brreq =>
      have hb : WebWindowCallback env st connid arg
          = .ok ⟨st, if 0 < (ProcessBrowserRequest env (strDrop arg 6)).data.length
                     then [.send connid (ProcessBrowserRequest env (strDrop arg 6))]
                     else []⟩ := by
        unfold WebWindowCallback
        rw [hr]
      rw [hb] at heq
      simp only [Except.ok.injEq, DispatchOut.mk.injEq] at heq
      exact heq.1 ▸ h
    | newcanvas =>
      by_cases hu : st.fUseRCanvas = true
      · have hb : WebWindowCallback env st connid arg
            = .ok ⟨(AddRCanvas st).1, (AddRCanvas st).2.1
                ++ [.send connid ("CANVS:" ++ env.canvJson
                     ["root7", GetRCanvasUrl env (AddRCanvas st).2.2,
                      (AddRCanvas st).2.2.fTitle])]⟩ := by
          unfold WebWindowCallback
          rw [hr, if_pos hu]
        rw [hb] at heq
        simp only [Except.ok.injEq, DispatchOut.mk.injEq] at heq
        exact heq.1 ▸ canvNamesOk_AddRCanvas st h
      · have hb : WebWindowCallback env st connid arg
            = .ok ⟨(AddCanvas st).1, (AddCanvas st).2.1
                ++ [.send connid ("CANVS:" ++ env.canvJson
                     ["root6", GetCanvasUrl env (AddCanvas st).2.2,
                      (AddCanvas st).2.2.fName])]⟩ := by
          unfold WebWindowCallback
          rw [hr, if_neg hu]
        rw [hb] at heq
        simp only [Except.ok.injEq, DispatchOut.mk.injEq] at heq
        exact heq.1 ▸ canvNamesOk_AddCanvas st h
    | dblclk =>
      cases hat : strAt arg 8 with
      | none =>
        have hb : WebWindowCallback env st connid arg
            = .error (.stringAtOutOfRange 8 arg.data.length) := by
          unfold WebWindowCallback
          rw [hr]
          simp only [hat]
        rw [hb] at heq
        exact Except.noConfusion heq
      | some c =>
        by_cases hc : (c != '[') = true
        · have hb : WebWindowCallback env st connid arg
              = .ok ⟨(ProcessDblClick env st (strDrop arg 7) "").1,
                     (ProcessDblClick env st (strDrop arg 7) "").2.1
                       ++ [.send connid (ProcessDblClick env st (strDrop arg 7) "").2.2]⟩ := by
            unfold WebWindowCallback
            rw [hr]
            simp only [hat, if_pos hc]
          rw [hb] at heq
          simp only [Except.ok.injEq, DispatchOut.mk.injEq] at heq
          exact heq.1 ▸ canvNamesOk_ProcessDblClick env st (strDrop arg 7) "" h
        · cases hp : env.parseStrArr (strDrop arg 7) with
          | none =>
            have hb : WebWindowCallback env st connid arg = .ok ⟨st, []⟩ := by
              unfold WebWindowCallback
              rw [hr]
              simp only [hat, if_neg hc, hp]
            rw [hb] at heq
            simp only [Except.ok.injEq, DispatchOut.mk.injEq] at heq
            exact heq.1 ▸ h
          | some arr =>
            cases h0 : arr.get? 0 with
            | none =>
              have hb : WebWindowCallback env st connid arg
                  = .error (.vectorIndexOutOfRange 0 arr.length) := by
                unfold WebWindowCallback
                rw [hr]
                simp only [hat, if_neg hc, hp, h0]
              rw [hb] at heq
              exact Except.noConfusion heq
            | some a0 =>
              cases h1 : arr.get? 1 with
              | none =>
                have hb : WebWindowCallback env st connid arg
                    = .error (.vectorIndexOutOfRange 1 arr.length) := by
                  unfold WebWindowCallback
                  rw [hr]
                  simp only [hat, if_neg hc, hp, h0, h1]
                rw [hb] at heq
                exact Except.noConfusion heq
              | some a1 =>
                have hb : WebWindowCallback env st connid arg
                    = .ok ⟨(ProcessDblClick env st a0 a1).1,
                           (ProcessDblClick env st a0 a1).2.1
                             ++ (if 0 < (ProcessDblClick env st a0 a1).2.2.data.length
                                 then [.send connid (ProcessDblClick env st a0 a1).2.2]
                                 else [])⟩ := by
                  unfold WebWindowCallback
                  rw [hr]
                  simp only [hat, if_neg hc, hp, h0, h1]
                rw [hb] at heq
                simp only [Except.ok.injEq, DispatchOut.mk.injEq] at heq
                exact heq.1 ▸ canvNamesOk_ProcessDblClick env st a0 a1 h
    | runCommand =>
      cases hp : ProcessRunCommand (strDrop arg 9) with
      | error f =>
        have hb : WebWindowCallback env st connid arg = .error f := by
          unfold WebWindowCallback
          rw [hr]
          simp only [hp]
        rw [hb] at heq
        exact Except.noConfusion heq
      | ok file =>
        have hb : WebWindowCallback env st connid arg
            = .ok ⟨st, [.execMacroFile file]⟩ := by
          unfold WebWindowCallback
          rw [hr]
          simp only [hp]
        rw [hb] at heq
        simp only [Except.ok.injEq, DispatchOut.mk.injEq] at heq
        exact heq.1 ▸ h
    | savefile =>
      cases hp : ProcessSaveFile (strDrop arg 9) with
      | error f =>
        have hb : WebWindowCallback env st connid arg = .error f := by
          unfold WebWindowCallback
          rw [hr]
          simp only [hp]
        rw [hb] at heq
        exact Except.noConfusion heq
      | ok nc =>
        have hb : WebWindowCallback env st connid arg
            = .ok ⟨st, [.writeFile nc.1 nc.2]⟩ := by
          unfold WebWindowCallback
          rw [hr]
          simp only [hp]
        rw [hb] at heq
        simp only [Except.ok.injEq, DispatchOut.mk.injEq] at heq
        exact heq.1 ▸ h
    | selectCanvas =>
      have hb : WebWindowCallback env st connid arg
          = .ok ⟨{ st with fActiveCanvas := strDrop arg 14 }, []⟩ := by
        unfold WebWindowCallback
        rw [hr]
      rw [hb] at heq
      simp only [Except.ok.injEq, DispatchOut.mk.injEq] at heq
      exact heq.1 ▸ h
    | closeCanvas =>
      have hb : WebWindowCallback env st connid arg
          = .ok ⟨CloseCanvas st (strDrop arg 13), []⟩ := by
        unfold WebWindowCallback
        rw [hr]
      rw [hb] at heq
      simp only [Except.ok.injEq, DispatchOut.mk.injEq] at heq
      exact heq.1 ▸ canvNamesOk_CloseCanvas st (strDrop arg 13) h
    | getworkdir =>
      have hb : WebWindowCallback env st connid arg
          = .ok ⟨st, [.send connid (GetCurrentWorkingDirectory st)]⟩ := by
        unfold WebWindowCallback
        rw [hr]
      rw [hb] at heq
      simp only [Except.ok.injEq, DispatchOut.mk.injEq] at heq
      exact heq.1 ▸ h
    | chdir =>
      have hb : WebWindowCallback env st connid arg
          = .ok ⟨{ st with fWorkingDirectory := strDrop arg 6 },
                 [.setTopItem (strDrop arg 6), .chDirSys (strDrop arg 6),
                  .send connid (GetCurrentWorkingDirectory
                    { st with fWorkingDirectory := strDrop arg 6 })]⟩ := by
        unfold WebWindowCallback
        rw [hr]
      rw [hb] at heq
      simp only [Except.ok.injEq, DispatchOut.mk.injEq] at heq
      exact heq.1 ▸ h

/-- Every reachable session state satisfies the names invariant. -/
theorem canvNamesOk_reachable (env : Env) (st : State)
    (h : Reachable env st) : canvNamesOk st := by
  induction h with
  | init u w => exact canvNamesOk_init u w
  | step s s' effs cid arg hprev heq ih =>
    exact canvNamesOk_step env s s' effs cid arg heq ih
  | connect s cid hprev ih => exact ih

/-- No string starts with both webcanv and rcanv. -/
theorem not_webcanv_and_rcanv (s : String)
    (h1 : strStarts "webcanv" s = true) (h2 : strStarts "rcanv" s = true) :
    False := by
  obtain ⟨d⟩ := s
  cases d with
  | nil => exact Bool.noConfusion h1
  | cons a t =>
    have h1' : ('w' == a && listStarts ['e', 'b', 'c', 'a', 'n', 'v'] t) = true := h1
    have h2' : ('r' == a && listStarts ['c', 'a', 'n', 'v'] t) = true := h2
    rw [Bool.and_eq_true] at h1' h2'
    have hw : 'w' = a := eq_of_beq h1'.1
    have hrr : 'r' = a := eq_of_beq h2'.1
    exact absurd (hw.trans hrr.symm) (by decide)

/-- Characterization of a successful legacy active-canvas lookup. -/
theorem GetActiveCanvas_some (st : State) (c : TCanvas)
    (h : GetActiveCanvas st = some c) :
    c ∈ st.fCanvases ∧ st.fActiveCanvas = c.fName := by
  have hm := List.mem_of_find?_eq_some h
  have hp := List.find?_some h
  exact ⟨hm, eq_of_beq hp⟩

/-- Characterization of a successful RCanvas active lookup. -/
theorem GetActiveRCanvas_some (st : State) (r : RCanvas)
    (h : GetActiveRCanvas st = some r) :
    r ∈ st.fRCanvases ∧ st.fActiveCanvas = r.fTitle := by
  have hm := List.mem_of_find?_eq_some h
  have hp := List.find?_some h
  exact ⟨hm, eq_of_beq hp⟩

/-- Claim C5 (amended: in every reachable state the two active lookups
    cannot both succeed, so the operations that need the active canvas use
    at most one canvas, namely the first match of the successful lookup; an
    active name matching no canvas is fail-soft): reachable-state
    exclusivity of the lookups, and the no-active double-click leaves the
    state unchanged with no canvas effect. -/
theorem C5_active_amended (env : Env) (st : State) (h : Reachable env st) :
    (GetActiveCanvas st = none ∨ GetActiveRCanvas st = none)
    ∧ (GetActiveCanvas st = none → GetActiveRCanvas st = none →
        ∀ p o, (ProcessDblClick env st p o).1 = st
          ∧ (ProcessDblClick env st p o).2.1 = []) := by
  have hnames := canvNamesOk_reachable env st h
  constructor
  · cases hgc : GetActiveCanvas st with
    | none => exact Or.inl rfl
    | some c =>
      cases hgr : GetActiveRCanvas st with
      | none => exact Or.inr rfl
      | some r =>
        obtain ⟨hcm, hce⟩ := GetActiveCanvas_some st c hgc
        obtain ⟨hrm, hre⟩ := GetActiveRCanvas_some st r hgr
        have h1 := hnames.1 c hcm
        have h2 := hnames.2 r hrm
        rw [← hce] at h1
        rw [← hre] at h2
        exact absurd h2 (fun hx => not_webcanv_and_rcanv st.fActiveCanvas h1 hx)
  · intro hg hgr p o
    unfold ProcessDblClick
    split
    · exact ⟨rfl, rfl⟩
    · split
      · exact ⟨rfl, rfl⟩
      · split
        · exact ⟨rfl, rfl⟩
        · rw [hg, hgr]
          exact ⟨rfl, rfl⟩

/-- Witness for C5 at the initial session state. -/
theorem C5_witness :
    Reachable env0 (initState false "w")
    ∧ ((GetActiveCanvas (initState false "w") = none
        ∨ GetActiveRCanvas (initState false "w") = none)
       ∧ (GetActiveCanvas (initState false "w") = none →
           GetActiveRCanvas (initState false "w") = none →
           ∀ p o, (ProcessDblClick env0 (initState false "w") p o).1
               = initState false "w"
             ∧ (ProcessDblClick env0 (initState false "w") p o).2.1 = [])) :=
  ⟨Reachable.init false "w",
   C5_active_amended env0 (initState false "w") (Reachable.init false "w")⟩

end RBrowser
